import Mathlib

/-
  Verification development for the snpy interactive prompting toolkit.

  The definitions below are a shallow embedding of the Snpy class
  (src/unnamed/part_000): the prompt state machines (text input, confirm,
  single/numbered select, multi-select checkbox, directory browser), the
  windowed list renderer getVisibleRange, and the Session Facade helpers
  makeFolder and makeTemplate.

  Conventions of the embedding:
  - JavaScript numbers holding cursor indices are embedded as Int (the
    source computes choices.length - 1, which is -1 on an empty list).
  - choices[i] followed by the JS idiom x || DEFAULT is embedded by
    jsIndexOrEmpty: an out-of-range read yields undefined, which the
    or-idiom turns into the empty string; an empty-string element is
    likewise mapped to the empty string, the same value it already is.
  - A JS Set of numbers is embedded as an insertion-ordered duplicate-free
    List Int: has is contains, add appends when absent, delete erases.
  - Synchronous filesystem calls that can throw are embedded in
    Except IOErr; a missing try/catch in the source is a plain monadic
    bind here, so a thrown error propagates to the embedded caller.
-/

/-- Shape of a readline key event as consumed by the key handlers:
str (empty string embeds a falsy/undefined str), key.name, key.ctrl,
key.meta. -/
inductive Key where
  | up
  | down
  | ret
  | backspace
  | space
  | char (str : String) (ctrl : Bool) (metaHeld : Bool)
deriving DecidableEq

/-- SELECT_THIS_PATH marker from the source. -/
def SELECT_THIS_PATH : String := "[ SELECT THIS PATH ]"

/-- SELECT_BACK_PATH marker from the source. -/
def SELECT_BACK_PATH : String := ".."

/-- MAX_VISIBLE_ITEMS from the source. -/
def MAX_VISIBLE_ITEMS : Int := 10

/-- Result record of getVisibleRange; the source field named end is
renamed stop because end is a Lean keyword. -/
structure VisibleRange where
  start : Int
  stop : Int
  showTop : Bool
  showBottom : Bool
deriving DecidableEq

/-- getVisibleRange (source lines 133-146): computes the visible window
of the choice list.  The two if statements of the source mutate start
and end in order, so the second test reads the updated start. -/
def getVisibleRange (items : List String) (currentIndex : Int) (maxVisible : Int) : VisibleRange :=
  let len : Int := (items.length : Int)
  let half := maxVisible / 2
  let start := max 0 (currentIndex - half)
  let end1 := min len (start + maxVisible)
  let start2 := if end1 = len then max 0 (end1 - maxVisible) else start
  let end2 := if start2 = 0 then min len maxVisible else end1
  { start := start2, stop := end2,
    showTop := decide (start2 > 0), showBottom := decide (end2 < len) }

/-- choices[i] under JS semantics: undefined (none) when the index is
negative or at least the length. -/
def jsIndex (choices : List String) (i : Int) : Option String :=
  if 0 ≤ i then choices.get? i.toNat else none

/-- choices[i] followed by the source idiom (choices[i] || two-quote
empty string): undefined collapses to the empty string (an empty-string
element is already that value). -/
def jsIndexOrEmpty (choices : List String) (i : Int) : String :=
  match jsIndex choices i with
  | some s => s
  | none => ""

/-- handleSelectable up key (source line 181):
currentIndex > 0 ? currentIndex - 1 : choices.length - 1. -/
def selectableUp (choices : List String) (currentIndex : Int) : Int :=
  if currentIndex > 0 then currentIndex - 1 else (choices.length : Int) - 1

/-- handleSelectable down key (source line 184):
currentIndex < choices.length - 1 ? currentIndex + 1 : 0. -/
def selectableDown (choices : List String) (currentIndex : Int) : Int :=
  if currentIndex < (choices.length : Int) - 1 then currentIndex + 1 else 0

/-- handleSelectable return key (source line 188):
selectedValue = choices[currentIndex] || empty. -/
def selectableResolve (choices : List String) (currentIndex : Int) : String :=
  jsIndexOrEmpty choices currentIndex

/-- handleCheckbox up key (source line 230), same expression as
selectableUp. -/
def checkboxUp (choices : List String) (currentIndex : Int) : Int :=
  if currentIndex > 0 then currentIndex - 1 else (choices.length : Int) - 1

/-- handleCheckbox down key (source line 233), same expression as
selectableDown. -/
def checkboxDown (choices : List String) (currentIndex : Int) : Int :=
  if currentIndex < (choices.length : Int) - 1 then currentIndex + 1 else 0

/-- selectedItems.has of the JS Set, on the insertion-ordered list. -/
def jsSetHas (s : List Int) (i : Int) : Bool := s.contains i

/-- selectedItems.add of the JS Set: appends when absent, no-op when
present. -/
def jsSetAdd (s : List Int) (i : Int) : List Int :=
  if s.contains i then s else s ++ [i]

/-- selectedItems.delete of the JS Set: removes the occurrence. -/
def jsSetDelete (s : List Int) (i : Int) : List Int := s.erase i

/-- handleCheckbox space key (source lines 235-241): delete when
present, add when absent. -/
def checkboxToggleSpace (selectedItems : List Int) (currentIndex : Int) : List Int :=
  if jsSetHas selectedItems currentIndex then jsSetDelete selectedItems currentIndex
  else jsSetAdd selectedItems currentIndex

/-- Lexicographic comparison of character lists by code point, the
UTF-16 code-unit order JS string comparison uses (they agree on the
ASCII characters appearing here). -/
def charListLt : List Char → List Char → Bool
  | [], [] => false
  | [], _ :: _ => true
  | _ :: _, [] => false
  | a :: as, b :: bs => if a < b then true else if b < a then false else charListLt as bs

/-- JS string less-than, on the underlying characters. -/
def jsStringLt (s t : String) : Bool := charListLt s.data t.data

/-- ToString of an integral JS number: its decimal form, which is what
Array.prototype.sort compares when called with no comparator. -/
def jsNumToString (i : Int) : String := toString i

/-- The default comparator of Array.prototype.sort: a sorts no later
than b when ToString(a) is no greater than ToString(b). -/
def jsSortLe (a b : Int) : Bool := !(jsStringLt (jsNumToString b) (jsNumToString a))

/-- Ordered insertion used to realize the default sort. -/
def insertLe (x : Int) : List Int → List Int
  | [] => [x]
  | y :: ys => if jsSortLe x y then x :: y :: ys else y :: insertLe x ys

/-- Array.from(selectedItems).sort() with the default comparator:
string-keyed insertion sort of the insertion-ordered elements. -/
def jsDefaultSort (l : List Int) : List Int := l.foldr insertLe []

/-- handleCheckbox return key (source lines 242-249):
Array.from(selectedItems).sort().map(index choices[index] or empty). -/
def checkboxResolve (choices : List String) (selectedItems : List Int) : List String :=
  (jsDefaultSort selectedItems).map (fun index => jsIndexOrEmpty choices index)

/-- handleInput defaultValue (source line 256):
option.default?.toString() || empty string. -/
def inputDefaultValue (d : Option String) : String := d.getD ""

/-- handleInput key handler (source lines 283-298), the non-terminal
transitions: backspace drops the last buffer character when the buffer
is non-empty; a plain character (truthy str, no ctrl, no meta) is
appended; every other key leaves the buffer unchanged. -/
def handleInputStep (input : String) (k : Key) : String :=
  match k with
  | Key.backspace => if input.length > 0 then input.dropRight 1 else input
  | Key.char s c m => if s != "" && !c && !m then input ++ s else input
  | _ => input

/-- handleInput return key (source line 287): resolve(input || defaultValue). -/
def handleInputResolve (input defaultValue : String) : String :=
  if input = "" then defaultValue else input

/-- str.toLowerCase(), embedded character by character (every string
this development lowercases is ASCII). -/
def jsToLowerCase (s : String) : String := String.mk (s.data.map Char.toLower)

/-- handleConfirm defaultValue (source line 303):
option.default === undefined ? Y : option.default ? Y : N. -/
def confirmDefaultValue (d : Option Bool) : String :=
  match d with
  | none => "Y"
  | some b => if b then "Y" else "N"

/-- handleConfirm key handler (source lines 332-350), the non-terminal
transitions: backspace drops the last character; a plain character is
lowercased and replaces the whole buffer when it is y or n, otherwise
it is ignored. -/
def handleConfirmStep (input : String) (k : Key) : String :=
  match k with
  | Key.backspace => if input.length > 0 then input.dropRight 1 else input
  | Key.char s c m =>
      if s != "" && !c && !m then
        let ch := jsToLowerCase s
        if ch = "y" ∨ ch = "n" then ch else input
      else input
  | _ => input

/-- handleConfirm return key (source line 336):
resolve((input || defaultValue).toLowerCase() === y). -/
def handleConfirmResolve (input defaultValue : String) : Bool :=
  jsToLowerCase (if input = "" then defaultValue else input) == "y"

/-- Filesystem error, the opaque payload of a thrown Node fs exception. -/
inductive IOErr where
  | code (msg : String)
deriving DecidableEq

/-- A node of the modelled filesystem: a regular file with its content,
or a directory. -/
inductive FSNode where
  | file (content : String)
  | dir
deriving DecidableEq

/-- A readdirSync withFileTypes entry. -/
structure Dirent where
  name : String
  isDirectory : Bool
deriving DecidableEq

/-- The filesystem collaborator: file/directory nodes by path, the
directory-listing answer by path, and fault switches that make the
corresponding call throw at a given path. -/
structure FS where
  nodes : String → Option FSNode
  entries : String → List Dirent
  failMkdir : String → Bool
  failReaddir : String → Bool
  failWrite : String → Bool

/-- fs.existsSync: true when a node exists at the path. -/
def FS.existsSync (fs : FS) (p : String) : Bool := (fs.nodes p).isSome

/-- fs.mkdirSync: throws when the fault switch is set, otherwise adds a
directory node at the path. -/
def FS.mkdirSync (fs : FS) (p : String) : Except IOErr FS :=
  if fs.failMkdir p then Except.error (IOErr.code "EACCES: mkdir failed")
  else Except.ok { fs with nodes := fun q => if q = p then some FSNode.dir else fs.nodes q }

/-- fs.readdirSync with withFileTypes: throws when the fault switch is
set, otherwise returns the listing. -/
def FS.readdirSync (fs : FS) (p : String) : Except IOErr (List Dirent) :=
  if fs.failReaddir p then Except.error (IOErr.code "ENOENT: readdir failed")
  else Except.ok (fs.entries p)

/-- fs.writeFileSync: throws when the fault switch is set, otherwise
replaces the node at the path with a file holding the content. -/
def FS.writeFileSync (fs : FS) (p content : String) : Except IOErr FS :=
  if fs.failWrite p then Except.error (IOErr.code "EIO: write failed")
  else Except.ok { fs with nodes := fun q => if q = p then some (FSNode.file content) else fs.nodes q }

/-- Splits a character list at slash separators into path segments. -/
def splitSegsAux (cur : List Char) : List Char → List String
  | [] => [String.mk cur.reverse]
  | c :: cs => if c = '/' then String.mk cur.reverse :: splitSegsAux [] cs
               else splitSegsAux (c :: cur) cs

/-- Path segments of a string, split at slashes. -/
def pathSegments (p : String) : List String := splitSegsAux [] p.data

/-- One step of POSIX dot-segment resolution over a reversed segment
stack: empty and dot segments are dropped, dot-dot pops the stack (or is
kept when the path is relative and the stack cannot be popped), anything
else is pushed. -/
def resolveDotsStep (allowAboveRoot : Bool) (acc : List String) (s : String) : List String :=
  if s = "" ∨ s = "." then acc
  else if s = ".." then
    match acc with
    | [] => if allowAboveRoot then [".."] else []
    | t :: rest => if t = ".." then s :: t :: rest else rest
  else s :: acc

/-- POSIX dot-segment resolution of a segment list. -/
def resolveDots (allowAboveRoot : Bool) (segs : List String) : List String :=
  (segs.foldl (resolveDotsStep allowAboveRoot) []).reverse

/-- Joins segments with slashes. -/
def joinSegs : List String → String
  | [] => ""
  | [s] => s
  | s :: rest => s ++ "/" ++ joinSegs rest

/-- Modelled from the spec: the path capability (joinPath, parentPath)
used by the directory navigator and the facade helpers is the Node
path module, which is outside this repository. pathNormalize models
posix path.normalize: collapse slashes, resolve dot and dot-dot
segments, keep leading dot-dots of a relative path, return dot for an
empty result (trailing-slash preservation is omitted; no input in this
development carries one). -/
def pathNormalize (p : String) : String :=
  if p = "" then "."
  else
    let isAbs : Bool := p.data.head? == some '/'
    let segs := resolveDots (!isAbs) (pathSegments p)
    let out := joinSegs segs
    if isAbs then "/" ++ out
    else if out = "" then "." else out

/-- Modelled from the spec: posix path.join of two parts, as used at
every join site of the source: concatenate the non-empty parts with a
slash and normalize; an all-empty join is dot. -/
def pathJoin (a b : String) : String :=
  let joined := joinSegs (([a, b].filter (fun s => s != "")))
  if joined = "" then "." else pathNormalize joined

/-- Modelled from the spec: posix path.dirname, the parentPath
capability. Scanning from the end: skip trailing slashes, skip the last
component, and cut just before the slash found there; with no such
slash the parent is the root for rooted paths and dot otherwise. -/
def pathDirname (p : String) : String :=
  if p = "" then "."
  else
    let cs := p.data
    let hasRoot : Bool := cs.head? == some '/'
    let rev := cs.reverse
    let afterTrail := rev.dropWhile (fun c => c == '/')
    let comp := afterTrail.dropWhile (fun c => c != '/')
    match comp with
    | [] => if hasRoot then "/" else "."
    | _ :: rest =>
      if rest.isEmpty then (if hasRoot then "/" else ".")
      else if hasRoot && rest == ['/'] then "//"
      else String.mk rest.reverse

/-- getDirectories (source lines 354-359):
fs.readdirSync(source, withFileTypes).filter(isDirectory).map(name).
There is no try/catch around the listing call, so a thrown error
propagates to the caller, which the Except bind records. -/
def getDirectories (fs : FS) (source : String) : Except IOErr (List String) := do
  let entries ← fs.readdirSync source
  return (entries.filter (fun dirent => dirent.isDirectory)).map (fun dirent => dirent.name)

/-- Return value of the facade helper makeFolder: the source returns
the literal false after logging, or the new path string. -/
inductive MakeFolderRet where
  | boolFalse
  | newPath (p : String)
deriving DecidableEq

/-- makeFolder (source lines 506-514): join, report-and-return-false
when the target exists, otherwise mkdirSync with no try/catch, so a
creation error propagates to the caller. -/
def makeFolder (fs : FS) (currentPath folderName : String) : Except IOErr (FS × MakeFolderRet) := do
  let newPath := pathJoin currentPath folderName
  if fs.existsSync newPath then
    return (fs, MakeFolderRet.boolFalse)
  else
    let fs2 ← fs.mkdirSync newPath
    return (fs2, MakeFolderRet.newPath newPath)

/-- Return value of makeTemplate, recording which branch ran: the
target existed and was reported, the write threw and was reported, or
the write succeeded. -/
inductive MakeTemplateRet where
  | fileExistsError
  | writeError
  | written
deriving DecidableEq

/-- makeTemplate (source lines 529-541): join, report-and-return when
the target file exists (no write), otherwise writeFileSync inside
try/catch, the catch reporting and swallowing the error. -/
def makeTemplate (fs : FS) (dir file_name code : String) : Except IOErr (FS × MakeTemplateRet) :=
  let filePath := pathJoin dir file_name
  if fs.existsSync filePath then
    Except.ok (fs, MakeTemplateRet.fileExistsError)
  else
    match fs.writeFileSync filePath code with
    | Except.ok fs2 => Except.ok (fs2, MakeTemplateRet.written)
    | Except.error _ => Except.ok (fs, MakeTemplateRet.writeError)

/-- Outcome of the nested folder-creation flow of the directory
browser: the browser stays at the old path, or moves into the newly
created folder. -/
inductive CreateFolderRet where
  | stayed (path : String)
  | created (newPath : String)
deriving DecidableEq

/-- createNewFolder of handleDirectory (source lines 374-411), the part
after the nested name prompt: empty name aborts; an existing target is
reported and aborts; mkdirSync runs inside try/catch, the catch
reporting the failure and staying in place. -/
def createNewFolder (fs : FS) (currentPath folderName : String) : Except IOErr (FS × CreateFolderRet) :=
  if folderName = "" then Except.ok (fs, CreateFolderRet.stayed currentPath)
  else
    let newPath := pathJoin currentPath folderName
    if fs.existsSync newPath then Except.ok (fs, CreateFolderRet.stayed currentPath)
    else
      match fs.mkdirSync newPath with
      | Except.ok fs2 => Except.ok (fs2, CreateFolderRet.created newPath)
      | Except.error _ => Except.ok (fs, CreateFolderRet.stayed currentPath)

/-- Browser state of handleDirectory: the current path and cursor. -/
structure DirState where
  currentPath : String
  currentIndex : Int
deriving DecidableEq

/-- getChoices of handleDirectory (source lines 365-372): the
select-this-path marker, the go-up marker when away from basePath, then
the subdirectory listing of the current path. -/
def dirGetChoices (fs : FS) (basePath : Option String) (currentPath : String) : Except IOErr (List String) := do
  let dirs ← getDirectories fs currentPath
  let choices := if currentPath ≠ basePath.getD "." then [SELECT_THIS_PATH, SELECT_BACK_PATH]
                 else [SELECT_THIS_PATH]
  return choices ++ dirs

/-- handleDirectory up key (source line 441), same expression as
selectableUp over the freshly recomputed choice list. -/
def directoryUp (choices : List String) (currentIndex : Int) : Int :=
  if currentIndex > 0 then currentIndex - 1 else (choices.length : Int) - 1

/-- handleDirectory down key (source line 445), same expression as
selectableDown. -/
def directoryDown (choices : List String) (currentIndex : Int) : Int :=
  if currentIndex < (choices.length : Int) - 1 then currentIndex + 1 else 0

/-- What one return keypress of the directory browser does: resolve the
prompt, continue browsing from a new state, or hit an out-of-range
cursor (where the source would pass undefined to path.join). -/
inductive DirOutcome where
  | resolved (path : String)
  | next (st : DirState)
  | invalidIndex
deriving DecidableEq

/-- handleDirectory return key (source lines 457-473): resolve on the
select-this-path marker, move to the parent on the go-up marker, and
descend by path.join otherwise, resetting the cursor on every move. -/
def handleDirectoryReturn (fs : FS) (basePath : Option String) (st : DirState) : Except IOErr DirOutcome := do
  let choices ← dirGetChoices fs basePath st.currentPath
  match jsIndex choices st.currentIndex with
  | none => return DirOutcome.invalidIndex
  | some selected =>
    if selected = SELECT_THIS_PATH then return (DirOutcome.resolved st.currentPath)
    else if selected = SELECT_BACK_PATH then
      return (DirOutcome.next { currentPath := pathDirname st.currentPath, currentIndex := 0 })
    else
      return (DirOutcome.next { currentPath := pathJoin st.currentPath selected, currentIndex := 0 })

/-- The filesystem of the round-trip scenario: the working directory
holds one subdirectory foo, which is empty. -/
def fsRoundTrip : FS where
  nodes := fun p => if p = "foo" then some FSNode.dir else none
  entries := fun p => if p = "." then [{ name := "foo", isDirectory := true }] else []
  failMkdir := fun _ => false
  failReaddir := fun _ => false
  failWrite := fun _ => false

/-- A filesystem whose mkdirSync and readdirSync calls throw. -/
def fsFaulty : FS where
  nodes := fun _ => none
  entries := fun _ => []
  failMkdir := fun _ => true
  failReaddir := fun _ => true
  failWrite := fun _ => false

/-- An eleven-entry choice list, long enough for a two-digit index. -/
def elevenChoices : List String :=
  ["c0", "c1", "c2", "c3", "c4", "c5", "c6", "c7", "c8", "c9", "c10"]

/-- The filesystem of the no-clobber witness: one file with known
content at the joined target path. -/
def fsWitness : FS where
  nodes := fun p => if p = "a/b.txt" then some (FSNode.file "old") else none
  entries := fun _ => []
  failMkdir := fun _ => false
  failReaddir := fun _ => false
  failWrite := fun _ => false

/-- Helper: one down keypress from an in-range cursor is the successor
modulo the list length. -/
theorem selectableDown_eq_emod (choices : List String) (i : Int)
    (h0 : 0 ≤ i) (hi : i < (choices.length : Int)) :
    selectableDown choices i = (i + 1) % (choices.length : Int) := by
  unfold selectableDown
  split
  · rename_i h
    rw [Int.emod_eq_of_lt (by omega) (by omega)]
  · rename_i h
    have he : i + 1 = (choices.length : Int) := by omega
    rw [he, Int.emod_self]

/-- Helper: k down keypresses from an in-range cursor add k modulo the
list length. -/
theorem selectableDown_iterate (choices : List String) (k : Nat) (i : Int)
    (h0 : 0 ≤ i) (hi : i < (choices.length : Int)) :
    (selectableDown choices)^[k] i = (i + k) % (choices.length : Int) := by
  induction k generalizing i with
  | zero => simpa using (Int.emod_eq_of_lt h0 hi).symm
  | succ k ih =>
    have hL : 0 < (choices.length : Int) := by omega
    rw [Function.iterate_succ_apply, selectableDown_eq_emod choices i h0 hi,
      ih _ (Int.emod_nonneg _ (by omega)) (Int.emod_lt_of_pos _ hL)]
    have he : i + 1 + (k : Int) = i + ((k + 1 : Nat) : Int) := by push_cast; ring
    rw [Int.emod_add_emod, he]

/-- Claim C1 (code side): resolving the checkbox prompt after toggling
indices 2 and 10 of an eleven-entry choice list yields the label of
index 10 before the label of index 2, in either toggle order, because
the default Array sort compares the decimal strings of the indices; the
result is not in ascending index order, contradicting the claimed
ordering at this input. -/
theorem checkbox_sort_lexicographic_at_eleven :
    checkboxResolve elevenChoices (checkboxToggleSpace (checkboxToggleSpace [] 2) 10)
      = ["c10", "c2"] ∧
    checkboxResolve elevenChoices (checkboxToggleSpace (checkboxToggleSpace [] 10) 2)
      = ["c10", "c2"] ∧
    ["c10", "c2"] ≠ ["c2", "c10"] :=
  ⟨by decide, by decide, by decide⟩

/-- Claim C2 (counterexample): on a filesystem whose mkdirSync and
readdirSync throw, the folder-creation helper makeFolder and the
directory-listing helper getDirectories propagate the thrown error to
their caller instead of converting it to a reported result — the
claimed catch-at-the-point-of-operation policy fails for them. -/
theorem makeFolder_getDirectories_propagate :
    makeFolder fsFaulty "." "newdir" = Except.error (IOErr.code "EACCES: mkdir failed") ∧
    getDirectories fsFaulty "." = Except.error (IOErr.code "ENOENT: readdir failed") :=
  ⟨rfl, rfl⟩

/-- Claim C2 (amended): the filesystem errors that are caught at the
point of the operation are those of the directory browser's nested
folder-creation flow and of the template-writing helper's write: for
every filesystem and arguments both return an ok result, never a
propagated error. -/
theorem createNewFolder_makeTemplate_catch_errors (fs : FS) (cur name dir file code : String) :
    (∃ r, createNewFolder fs cur name = Except.ok r) ∧
    (∃ r, makeTemplate fs dir file code = Except.ok r) := by
  constructor
  · simp only [createNewFolder]
    split
    · exact ⟨_, rfl⟩
    · split
      · exact ⟨_, rfl⟩
      · split <;> exact ⟨_, rfl⟩
  · simp only [makeTemplate]
    split
    · exact ⟨_, rfl⟩
    · split <;> exact ⟨_, rfl⟩

/-- Claim C3: for every choice list and every cursor with
0 ≤ currentIndex < max(itemCount, 1), the window computed by
getVisibleRange with maxVisible 10 satisfies, when the list is
non-empty, 0 ≤ start ≤ currentIndex < end ≤ itemCount and
end - start ≤ 10, with showTop true exactly when start > 0 and
showBottom true exactly when end < itemCount; and on the empty list it
is the empty window with both indicators false. -/
theorem getVisibleRange_window_invariant (items : List String) (i : Int)
    (h0 : 0 ≤ i) (hi : i < max (items.length : Int) 1) :
    (0 < (items.length : Int) →
      0 ≤ (getVisibleRange items i 10).start ∧
      (getVisibleRange items i 10).start ≤ i ∧
      i < (getVisibleRange items i 10).stop ∧
      (getVisibleRange items i 10).stop ≤ (items.length : Int) ∧
      (getVisibleRange items i 10).stop - (getVisibleRange items i 10).start ≤ 10 ∧
      ((getVisibleRange items i 10).showTop = true ↔ 0 < (getVisibleRange items i 10).start) ∧
      ((getVisibleRange items i 10).showBottom = true ↔
        (getVisibleRange items i 10).stop < (items.length : Int))) ∧
    ((items.length : Int) = 0 →
      (getVisibleRange items i 10).start = 0 ∧ (getVisibleRange items i 10).stop = 0 ∧
      (getVisibleRange items i 10).showTop = false ∧
      (getVisibleRange items i 10).showBottom = false) := by
  simp only [getVisibleRange, decide_eq_true_eq, decide_eq_false_iff_not, max_def, min_def,
    and_true, true_and] at *
  split_ifs at * <;> omega

/-- Witness for claim C3: the invariant evaluated on a three-entry list
with the cursor at index 1. -/
theorem getVisibleRange_window_invariant_witness :
    (0 : Int) ≤ 1 ∧ (1 : Int) < max ((["a", "b", "c"] : List String).length : Int) 1 ∧
    (0 ≤ (getVisibleRange ["a", "b", "c"] 1 10).start ∧
      (getVisibleRange ["a", "b", "c"] 1 10).start ≤ 1 ∧
      1 < (getVisibleRange ["a", "b", "c"] 1 10).stop ∧
      (getVisibleRange ["a", "b", "c"] 1 10).stop ≤ ((["a", "b", "c"] : List String).length : Int) ∧
      (getVisibleRange ["a", "b", "c"] 1 10).stop - (getVisibleRange ["a", "b", "c"] 1 10).start ≤ 10 ∧
      ((getVisibleRange ["a", "b", "c"] 1 10).showTop = true ↔
        0 < (getVisibleRange ["a", "b", "c"] 1 10).start) ∧
      ((getVisibleRange ["a", "b", "c"] 1 10).showBottom = true ↔
        (getVisibleRange ["a", "b", "c"] 1 10).stop < ((["a", "b", "c"] : List String).length : Int))) :=
  ⟨by decide, by decide,
    (getVisibleRange_window_invariant ["a", "b", "c"] 1 (by decide) (by decide)).1 (by decide)⟩

/-- Claim C4: a text prompt resolves on confirm with the typed buffer
when non-empty and with the configured default otherwise (empty string
when no default); confirm after zero keystrokes gives the default, a
backspace on the empty buffer is a no-op, and backspace-then-confirm
with nothing typed also gives the default. -/
theorem handleInput_confirm_resolves_default (d : Option String) (buf : String) :
    (buf ≠ "" → handleInputResolve buf (inputDefaultValue d) = buf) ∧
    handleInputResolve "" (inputDefaultValue d) = inputDefaultValue d ∧
    inputDefaultValue none = "" ∧
    handleInputStep "" Key.backspace = "" ∧
    handleInputResolve (handleInputStep "" Key.backspace) (inputDefaultValue d) = inputDefaultValue d := by
  refine ⟨fun h => ?_, rfl, rfl, rfl, rfl⟩
  unfold handleInputResolve
  rw [if_neg h]

/-- Witness for claim C4: a non-empty buffer wins over the default. -/
theorem handleInput_confirm_resolves_default_witness :
    "ok" ≠ "" ∧ handleInputResolve "ok" (inputDefaultValue (some "Component")) = "ok" :=
  ⟨by decide, (handleInput_confirm_resolves_default (some "Component") "ok").1 (by decide)⟩

/-- Claim C5: the confirm prompt accepts only y and n
case-insensitively (every other character leaves the buffer unchanged),
treats an absent default as true, and on confirm answers true exactly
when the lowercased buffer-or-default is y; with default true, typing N
or n resolves false and confirming with no input resolves true. -/
theorem handleConfirm_case_insensitive_defaults (input d s : String) (c m : Bool) :
    (handleConfirmStep input (Key.char s c m) = input ∨
      (c = false ∧ m = false ∧ (jsToLowerCase s = "y" ∨ jsToLowerCase s = "n") ∧
        handleConfirmStep input (Key.char s c m) = jsToLowerCase s)) ∧
    confirmDefaultValue none = "Y" ∧
    handleConfirmResolve "" (confirmDefaultValue none) = true ∧
    (handleConfirmResolve input d = true ↔ jsToLowerCase (if input = "" then d else input) = "y") ∧
    handleConfirmStep "" (Key.char "N" false false) = "n" ∧
    handleConfirmStep "" (Key.char "n" false false) = "n" ∧
    handleConfirmResolve "n" (confirmDefaultValue (some true)) = false ∧
    handleConfirmResolve "" (confirmDefaultValue (some true)) = true := by
  refine ⟨?_, rfl, by decide, ?_, by decide, by decide, by decide, by decide⟩
  · simp only [handleConfirmStep]
    by_cases hcond : (s != "" && !c && !m) = true
    · rw [if_pos hcond]
      simp only [Bool.and_eq_true, Bool.not_eq_true', bne_iff_ne] at hcond
      by_cases hyn : jsToLowerCase s = "y" ∨ jsToLowerCase s = "n"
      · right
        exact ⟨hcond.1.2, hcond.2, hyn, by rw [if_pos hyn]⟩
      · left
        rw [if_neg hyn]
    · rw [if_neg hcond]
      left; rfl
  · unfold handleConfirmResolve
    simp [beq_iff_eq]

/-- Claim C6: on a non-empty choice list, up at index 0 lands on the
last index, down at the last index lands on 0, and itemCount presses of
down return any in-range cursor to its start, for the
single/numbered-select, multi-select and directory-browser cursors
alike. -/
theorem cursor_wraparound_all_prompts (choices : List String) (i : Int)
    (hne : choices ≠ []) (h0 : 0 ≤ i) (hi : i < (choices.length : Int)) :
    selectableUp choices 0 = (choices.length : Int) - 1 ∧
    selectableDown choices ((choices.length : Int) - 1) = 0 ∧
    (selectableDown choices)^[choices.length] i = i ∧
    checkboxUp choices 0 = (choices.length : Int) - 1 ∧
    checkboxDown choices ((choices.length : Int) - 1) = 0 ∧
    (checkboxDown choices)^[choices.length] i = i ∧
    directoryUp choices 0 = (choices.length : Int) - 1 ∧
    directoryDown choices ((choices.length : Int) - 1) = 0 ∧
    (directoryDown choices)^[choices.length] i = i := by
  have hL : 0 < (choices.length : Int) := by
    have := List.length_pos.mpr hne
    exact_mod_cast this
  have hcb : checkboxDown = selectableDown := rfl
  have hdir : directoryDown = selectableDown := rfl
  have hup : selectableUp choices 0 = (choices.length : Int) - 1 := by
    unfold selectableUp; simp
  have hdown : selectableDown choices ((choices.length : Int) - 1) = 0 := by
    unfold selectableDown; simp
  have hiter : (selectableDown choices)^[choices.length] i = i := by
    rw [selectableDown_iterate choices choices.length i h0 hi]
    rw [Int.add_emod_self]
    exact Int.emod_eq_of_lt h0 hi
  exact ⟨hup, hdown, hiter, hup, hdown, by rw [hcb]; exact hiter, hup, hdown,
    by rw [hdir]; exact hiter⟩

/-- Witness for claim C6: the wraparound facts on a three-entry list
starting at index 1. -/
theorem cursor_wraparound_all_prompts_witness :
    (["a", "b", "c"] : List String) ≠ [] ∧ (0 : Int) ≤ 1 ∧
    (1 : Int) < ((["a", "b", "c"] : List String).length : Int) ∧
    (selectableUp ["a", "b", "c"] 0 = 2 ∧
      selectableDown ["a", "b", "c"] 2 = 0 ∧
      (selectableDown ["a", "b", "c"])^[3] 1 = 1 ∧
      checkboxUp ["a", "b", "c"] 0 = 2 ∧
      checkboxDown ["a", "b", "c"] 2 = 0 ∧
      (checkboxDown ["a", "b", "c"])^[3] 1 = 1 ∧
      directoryUp ["a", "b", "c"] 0 = 2 ∧
      directoryDown ["a", "b", "c"] 2 = 0 ∧
      (directoryDown ["a", "b", "c"])^[3] 1 = 1) :=
  ⟨by decide, by decide, by decide,
    cursor_wraparound_all_prompts ["a", "b", "c"] 1 (by decide) (by decide) (by decide)⟩

/-- Claim C7: in a directory prompt with basePath dot, confirming on
the subdirectory entry foo (index 1 of the two-entry choice list),
then on the go-up marker (index 1 of the choice list at foo), then on
the select-this-path marker resolves the prompt with dot: descending
and going back up restores the original path as reconstructed by the
path-join and parent-path operations. -/
theorem directory_round_trip :
    dirGetChoices fsRoundTrip (some ".") "." = Except.ok [SELECT_THIS_PATH, "foo"] ∧
    handleDirectoryReturn fsRoundTrip (some ".") { currentPath := ".", currentIndex := 1 }
      = Except.ok (DirOutcome.next { currentPath := "foo", currentIndex := 0 }) ∧
    dirGetChoices fsRoundTrip (some ".") "foo" = Except.ok [SELECT_THIS_PATH, SELECT_BACK_PATH] ∧
    handleDirectoryReturn fsRoundTrip (some ".") { currentPath := "foo", currentIndex := 1 }
      = Except.ok (DirOutcome.next { currentPath := ".", currentIndex := 0 }) ∧
    handleDirectoryReturn fsRoundTrip (some ".") { currentPath := ".", currentIndex := 0 }
      = Except.ok (DirOutcome.resolved ".") :=
  ⟨rfl, rfl, rfl, rfl, rfl⟩

/-- Claim C8: when a file already exists at the joined target path,
makeTemplate reports the error and returns with the filesystem exactly
as it was — no write happens, so the existing content is unchanged. -/
theorem makeTemplate_no_clobber (fs : FS) (dir file_name code content : String)
    (h : fs.nodes (pathJoin dir file_name) = some (FSNode.file content)) :
    makeTemplate fs dir file_name code = Except.ok (fs, MakeTemplateRet.fileExistsError) := by
  simp only [makeTemplate]
  have hex : fs.existsSync (pathJoin dir file_name) = true := by
    unfold FS.existsSync
    rw [h]
    rfl
  rw [if_pos hex]

/-- Witness for claim C8: a rejected write attempt against a file
holding the content old leaves the filesystem value untouched. -/
theorem makeTemplate_no_clobber_witness :
    fsWitness.nodes (pathJoin "a" "b.txt") = some (FSNode.file "old") ∧
    makeTemplate fsWitness "a" "b.txt" "new content"
      = Except.ok (fsWitness, MakeTemplateRet.fileExistsError) :=
  ⟨by decide, makeTemplate_no_clobber fsWitness "a" "b.txt" "new content" "old" (by decide)⟩

/-- Claim C9: a list or nlist prompt with an empty choice list still
resolves on confirm, with the empty string, for every cursor value the
machine can hold (including the negative index reachable by pressing up
on an empty list). -/
theorem selectableResolve_total_empty : ∀ i : Int, selectableResolve [] i = "" := by
  intro i
  unfold selectableResolve jsIndexOrEmpty jsIndex
  simp only [List.get?_nil, ite_self]

/-- Claim C10: toggling the same index twice with the space key, with
no other toggles in between, restores the selection set to exactly its
prior membership, for every duplicate-free prior selection list (the
reachable states of a JS Set) and every index. -/
theorem checkboxToggle_double_restores (s : List Int) (i : Int) (hnd : s.Nodup) :
    ∀ j : Int, j ∈ checkboxToggleSpace (checkboxToggleSpace s i) i ↔ j ∈ s := by
  intro j
  unfold checkboxToggleSpace jsSetHas jsSetAdd jsSetDelete
  simp only [List.elem_iff]
  by_cases hmem : i ∈ s
  · simp only [if_pos hmem]
    have hni : i ∉ s.erase i := by simp [hnd.mem_erase_iff]
    simp only [if_neg hni]
    simp only [List.mem_append, hnd.mem_erase_iff, List.mem_singleton]
    by_cases hj : j = i
    · subst hj; tauto
    · tauto
  · simp only [if_neg hmem]
    have hin : i ∈ s ++ [i] := by simp
    simp only [if_pos hin]
    rw [List.erase_append_right _ hmem, List.erase_cons_head]
    simp

/-- Witness for claim C10: double-toggling index 2 on the selection
list five-then-two restores membership of 2. -/
theorem checkboxToggle_double_restores_witness :
    ([5, 2] : List Int).Nodup ∧
    (2 ∈ checkboxToggleSpace (checkboxToggleSpace [5, 2] 2) 2 ↔ 2 ∈ ([5, 2] : List Int)) :=
  ⟨by decide, checkboxToggle_double_restores [5, 2] 2 (by decide) 2⟩
